import Mathlib

/-!
Verification of the scoring / grading / heuristic-fallback core of the
CRO-UX website-audit tool (`src/app/api/analyze/route.ts`).

The TypeScript code is shallowly embedded: JavaScript numbers are modelled
by `ℚ` (on the reachable score domains the IEEE-double computations of the
source agree with exact rational arithmetic), `Math.round` by `jsRound`
(floor of x + 1/2, which is the JavaScript half-up rounding), strings by
`String`, and the effectful boundaries (OpenAI call, axios fetch) by
explicit outcome parameters.  String lowering models `toLowerCase` on the
ASCII range, which covers every string the audited code compares.
-/

/-- JavaScript `Math.round`: half-integers round toward positive infinity. -/
def jsRound (x : ℚ) : ℤ := Int.floor (x + 1/2)

/-- JavaScript `String.prototype.includes` helper: does the second list
start with the first? -/
def charsStartWith : List Char → List Char → Bool
  | [], _ => true
  | _ :: _, [] => false
  | p :: ps, c :: cs => p == c && charsStartWith ps cs

/-- Substring occurrence over character lists. -/
def charsIncl (pat : List Char) : List Char → Bool
  | [] => pat.isEmpty
  | c :: cs => charsStartWith pat (c :: cs) || charsIncl pat cs

/-- `s.includes(pat)` of JavaScript. -/
def strIncludes (s pat : String) : Bool := charsIncl pat.data s.data

/-- `toLowerCase` restricted to the ASCII range (all strings compared by the
audited code are ASCII). -/
def lowerCase (s : String) : String := String.mk (s.data.map Char.toLower)

/-- The structured summary returned by `fetchWebsiteContent` (`route.ts`
lines 189-199; the raw html and status fields are never consumed by the
scoring core and are omitted). -/
structure ContentSummary where
  title : String
  description : String
  headings : List String
  links : List String
  images : List String
  forms : Nat
  buttons : Nat
deriving DecidableEq

/-- One evaluated audit question (`route.ts` lines 461-467).  `answer` and
`priority` stay strings, as in the source: `calculateScore` has a default
branch for unexpected answers. -/
structure AnsweredQuestion where
  question : String
  answer : String
  evidence : String
  recommendation : String
  priority : String
deriving DecidableEq

/-- `route.ts` lines 170-174: the alt attribute is extracted from each
`<img ... alt="...">` match (empty string when absent) and empty entries
are dropped by `.filter(alt => alt)`. -/
def extractImages (alts : List String) : List String :=
  alts.filter (fun a => a != "")

/-- The heuristic fallback rule chain for one question
(`performFallbackAnalysis` body, `route.ts` lines 331-468), translated
branch by branch.  Fields not assigned in a branch keep the initial values
`needs_work` / generic evidence / generic recommendation / `medium`. -/
def fallbackAnswer (content : ContentSummary) (question : String) : AnsweredQuestion :=
  let lowerQuestion := lowerCase question
  let headings := content.headings.map lowerCase
  if strIncludes lowerQuestion "value proposition" || strIncludes lowerQuestion "clear" then
    if content.title ≠ "" ∧ content.description ≠ "" then
      { question := question, answer := "yes",
        evidence := "Website has a title and description",
        recommendation := "Ensure your value proposition is prominently displayed above the fold",
        priority := "medium" }
    else
      { question := question, answer := "needs_work",
        evidence := "Basic analysis based on available content",
        recommendation := "Review this aspect manually for detailed insights",
        priority := "medium" }
  else if strIncludes lowerQuestion "call-to-action" || strIncludes lowerQuestion "cta" then
    if 0 < content.buttons then
      { question := question, answer := "yes",
        evidence := "Found " ++ toString content.buttons ++ " buttons/CTAs on the page",
        recommendation := "Ensure CTAs are clear, prominent, and action-oriented",
        priority := "medium" }
    else
      { question := question, answer := "no",
        evidence := "No buttons or CTAs detected",
        recommendation := "Add clear call-to-action buttons to guide user behavior",
        priority := "high" }
  else if strIncludes lowerQuestion "testimonial" || strIncludes lowerQuestion "review" then
    if headings.any (fun h =>
        strIncludes h "testimonial" || strIncludes h "review" || strIncludes h "customer") then
      { question := question, answer := "yes",
        evidence := "Found potential social proof content in headings",
        recommendation := "Ensure testimonials are prominently displayed and credible",
        priority := "medium" }
    else
      { question := question, answer := "no",
        evidence := "No testimonials or reviews detected",
        recommendation := "Add customer testimonials and reviews to build trust",
        priority := "medium" }
  else if strIncludes lowerQuestion "form" || strIncludes lowerQuestion "lead capture" then
    if 0 < content.forms then
      { question := question, answer := "yes",
        evidence := "Found " ++ toString content.forms ++ " forms on the page",
        recommendation := "Optimize forms for conversion with minimal fields and clear labels",
        priority := "medium" }
    else
      { question := question, answer := "no",
        evidence := "No forms detected",
        recommendation := "Add lead capture forms to collect visitor information",
        priority := "high" }
  else if strIncludes lowerQuestion "mobile" || strIncludes lowerQuestion "responsive" then
    { question := question, answer := "needs_work",
      evidence := "Mobile responsiveness requires manual testing",
      recommendation := "Test website on various mobile devices and screen sizes",
      priority := "medium" }
  else if strIncludes lowerQuestion "speed" || strIncludes lowerQuestion "load" then
    { question := question, answer := "needs_work",
      evidence := "Page speed requires performance testing tools",
      recommendation := "Use tools like Google PageSpeed Insights to measure and optimize loading speed",
      priority := "medium" }
  else if strIncludes lowerQuestion "accessibility" || strIncludes lowerQuestion "alt text" then
    let imagesWithAlt := (content.images.filter (fun i => i != "")).length
    let totalImages := content.images.length
    if 0 < totalImages then
      if imagesWithAlt = totalImages then
        { question := question, answer := "yes",
          evidence := "All " ++ toString totalImages ++ " images have alt text",
          recommendation := "Maintain accessibility standards for all new images",
          priority := "medium" }
      else
        { question := question, answer := "needs_work",
          evidence := toString imagesWithAlt ++ "/" ++ toString totalImages ++ " images have alt text",
          recommendation := "Add alt text to all images for better accessibility",
          priority := "medium" }
    else
      { question := question, answer := "needs_work",
        evidence := "No images detected to analyze",
        recommendation := "Ensure all images have descriptive alt text when added",
        priority := "medium" }
  else if strIncludes lowerQuestion "navigation" || strIncludes lowerQuestion "hierarchy" then
    if 0 < headings.length then
      { question := question, answer := "yes",
        evidence := "Found " ++ toString headings.length ++ " headings indicating content structure",
        recommendation := "Ensure navigation follows logical information hierarchy",
        priority := "medium" }
    else
      { question := question, answer := "needs_work",
        evidence := "Limited heading structure detected",
        recommendation := "Improve content structure with proper heading hierarchy",
        priority := "medium" }
  else if strIncludes lowerQuestion "tracking" || strIncludes lowerQuestion "analytics" then
    { question := question, answer := "needs_work",
      evidence := "Analytics setup requires manual verification",
      recommendation := "Verify Google Analytics or other tracking tools are properly configured",
      priority := "medium" }
  else if strIncludes lowerQuestion "a/b testing" || strIncludes lowerQuestion "experiment" then
    { question := question, answer := "needs_work",
      evidence := "A/B testing setup requires manual verification",
      recommendation := "Consider implementing A/B testing tools like Optimizely or Google Optimize",
      priority := "medium" }
  else if strIncludes lowerQuestion "urgency" || strIncludes lowerQuestion "scarcity" then
    if headings.any (fun h =>
        strIncludes h "limited" || strIncludes h "offer" || strIncludes h "sale" ||
        strIncludes h "time") then
      { question := question, answer := "yes",
        evidence := "Found potential urgency/scarcity elements in content",
        recommendation := "Ensure urgency elements are genuine and not misleading",
        priority := "medium" }
    else
      { question := question, answer := "no",
        evidence := "No urgency or scarcity elements detected",
        recommendation := "Consider adding limited-time offers or scarcity indicators",
        priority := "medium" }
  else if strIncludes lowerQuestion "pricing" || strIncludes lowerQuestion "cost" then
    if headings.any (fun h =>
        strIncludes h "price" || strIncludes h "cost" || strIncludes h "fee" ||
        strIncludes h "$") then
      { question := question, answer := "yes",
        evidence := "Found potential pricing information in content",
        recommendation := "Ensure pricing is clear, transparent, and easy to understand",
        priority := "medium" }
    else
      { question := question, answer := "needs_work",
        evidence := "Pricing information not clearly detected",
        recommendation := "Make pricing information clear and accessible to visitors",
        priority := "medium" }
  else
    { question := question, answer := "needs_work",
      evidence := "Basic analysis based on available content",
      recommendation := "Review this aspect manually for detailed insights",
      priority := "medium" }

/-- `performFallbackAnalysis` (`route.ts` lines 328-471): one heuristic
answer per question, in input order. -/
def performFallbackAnalysis (content : ContentSummary) (questions : List String) :
    List AnsweredQuestion :=
  questions.map (fallbackAnswer content)

/-- Point value per answer (`calculateScore` switch, `route.ts` 474-481). -/
def pointValue (answer : String) : ℚ :=
  if answer = "yes" then 1
  else if answer = "needs_work" then 1/2
  else if answer = "no" then 0
  else 0

/-- `calculateScore` (`route.ts` 473-483): left fold of the point values,
starting from 0, no rounding. -/
def calculateScore (questions : List AnsweredQuestion) : ℚ :=
  (questions.map (fun q => pointValue q.answer)).foldl (· + ·) 0

/-- `calculateOverallGrade` (`route.ts` 485-492). -/
def calculateOverallGrade (croScore uxScore : ℚ) : String :=
  let totalScore := (croScore / 15) * (1/2) + (uxScore / 18) * (1/2)
  if totalScore ≥ 9/10 then "A"
  else if totalScore ≥ 8/10 then "B"
  else if totalScore ≥ 7/10 then "C"
  else if totalScore ≥ 6/10 then "D"
  else "F"

/-- The CRO question bank (`route.ts` lines 15-66): 7 categories, 15
questions. -/
structure Category where
  category : String
  questions : List String
deriving DecidableEq

def CRO_QUESTIONS : List Category :=
  [ { category := "Offers & Messaging",
      questions :=
        [ "Is there a clear, compelling value proposition above the fold?",
          "Are there multiple clear calls-to-action (CTAs) on the page?",
          "Is there social proof (testimonials, reviews, case studies) visible?",
          "Are there urgency or scarcity elements (limited time, limited quantity)?" ] },
    { category := "Social Proof & Trust",
      questions :=
        [ "Are there customer testimonials or reviews prominently displayed?",
          "Are there trust signals (security badges, certifications, guarantees)?" ] },
    { category := "Analytics & Tracking",
      questions :=
        [ "Is there proper conversion tracking set up?",
          "Are there A/B testing tools or experiments running?" ] },
    { category := "Lead Capture & Forms",
      questions :=
        [ "Are forms optimized for conversion (minimal fields, clear labels)?",
          "Is there a lead magnet or free offer to capture emails?" ] },
    { category := "Urgency & Scarcity",
      questions :=
        [ "Are there time-sensitive offers or limited availability indicators?" ] },
    { category := "Pricing & Friction",
      questions :=
        [ "Is pricing transparent and easy to understand?",
          "Are there multiple pricing tiers or options available?" ] },
    { category := "Speed & Experimentation",
      questions :=
        [ "Does the page load quickly (under 3 seconds)?",
          "Are there ongoing optimization efforts or experiments?" ] } ]

/-- The UX question bank (`route.ts` lines 69-128): 8 categories, 18
questions. -/
def UX_QUESTIONS : List Category :=
  [ { category := "Performance & Stability",
      questions :=
        [ "Does the page load quickly and reliably?",
          "Are there any broken links or 404 errors?" ] },
    { category := "Mobile-First Usability",
      questions :=
        [ "Is the site fully responsive and mobile-friendly?",
          "Are touch targets appropriately sized for mobile?",
          "Is the navigation intuitive on mobile devices?" ] },
    { category := "Navigation & Information Architecture",
      questions :=
        [ "Is the navigation clear and easy to understand?",
          "Is there a logical information hierarchy?" ] },
    { category := "Accessibility (WCAG 2.1 AA)",
      questions :=
        [ "Are there proper alt texts for images?",
          "Is there sufficient color contrast?",
          "Is the site keyboard navigable?" ] },
    { category := "Content & Microcopy",
      questions :=
        [ "Is the content clear, concise, and scannable?",
          "Are error messages helpful and actionable?" ] },
    { category := "Error States & Feedback",
      questions :=
        [ "Are form validation errors clear and helpful?",
          "Is there appropriate feedback for user actions?" ] },
    { category := "Visual Design & Consistency",
      questions :=
        [ "Is the design consistent throughout the site?",
          "Are visual elements properly aligned and spaced?" ] },
    { category := "Delight & Engagement",
      questions :=
        [ "Are there interactive elements that engage users?",
          "Is the overall experience enjoyable and memorable?" ] } ]

/-- Outcome of one `analyzeWithAI` call at the model boundary:
the OpenAI key is missing, the call or the JSON parse threw with a given
message, or a parsed response was obtained. -/
inductive AIOutcome where
  | unavailable : AIOutcome
  | failure : String → AIOutcome
  | success : List AnsweredQuestion → AIOutcome
deriving DecidableEq

/-- The evidence text chosen by the catch handler of `analyzeWithAI`
(`route.ts` lines 290-312). -/
def failureEvidence (msg : String) : String :=
  if strIncludes msg "rate limit" then
    "OpenAI rate limit exceeded. Please try again in a few minutes."
  else if strIncludes msg "quota" then
    "OpenAI quota exceeded. Please check your API usage."
  else if strIncludes msg "invalid api key" then
    "Invalid OpenAI API key. Please check your configuration."
  else if strIncludes msg "timeout" then
    "AI analysis timed out. The request took too long to process."
  else if strIncludes msg "Invalid AI response format" then
    "AI response format error. The analysis could not be parsed."
  else
    "Unable to analyze due to technical issues"

/-- The recommendation text chosen by the same catch handler. -/
def failureRecommendation (msg : String) : String :=
  if strIncludes msg "rate limit" then
    "Wait a few minutes and try again, or upgrade your OpenAI plan."
  else if strIncludes msg "quota" then
    "Check your OpenAI account usage and billing status."
  else if strIncludes msg "invalid api key" then
    "Verify your OpenAI API key in the environment variables."
  else if strIncludes msg "timeout" then
    "Try analyzing a smaller website or try again later."
  else if strIncludes msg "Invalid AI response format" then
    "Try again, or contact support if the issue persists."
  else
    "Please review manually"

/-- `analyzeWithAI` (`route.ts` lines 218-325): no key configured means
fallback analysis, a thrown call/parse error means the catch handler's
constant `needs_work` rows, a parsed response is returned as is. -/
def analyzeWithAI (outcome : AIOutcome) (content : ContentSummary)
    (questions : List String) : List AnsweredQuestion :=
  match outcome with
  | .unavailable => performFallbackAnalysis content questions
  | .failure msg =>
      questions.map (fun q =>
        { question := q, answer := "needs_work",
          evidence := failureEvidence msg,
          recommendation := failureRecommendation msg,
          priority := "medium" })
  | .success resp => resp

/-- One per-category result row (`route.ts` lines 603-607 / 621-625). -/
structure CategoryResult where
  category : String
  questions : List AnsweredQuestion
  score : ℤ
deriving DecidableEq

/-- The per-category loop body of `POST`: evaluate the category's questions
and attach `Math.round((calculateScore(qs) / category.questions.length) * 100)`. -/
def runCategory (outcome : AIOutcome) (content : ContentSummary) (cat : Category) :
    CategoryResult :=
  let qs := analyzeWithAI outcome content cat.questions
  { category := cat.category,
    questions := qs,
    score := jsRound ((calculateScore qs / (cat.questions.length : ℚ)) * 100) }

/-- The sequential `for (const category of ...)` loop of `POST`; the
`backend` function gives the model-boundary outcome of the i-th call. -/
def runCategories (backend : Nat → AIOutcome) (base : Nat) (content : ContentSummary) :
    List Category → List CategoryResult
  | [] => []
  | cat :: cats =>
      runCategory (backend base) content cat :: runCategories backend (base + 1) content cats

/-- A recommendation row (`route.ts` lines 504-511 / 521-528). -/
structure Recommendation where
  title : String
  description : String
  priority : String
  impact : String
  effort : String
  category : String
deriving DecidableEq

/-- `generateRecommendations` (`route.ts` lines 494-532): the first five
high-priority non-yes findings become `Fix:` rows, then the first three
medium-priority non-yes findings become `Improve:` rows.  (The source's
`includes` test for the category tag compares object references; answered
questions are compared structurally here.) -/
def generateRecommendations (croAnalysis uxAnalysis : List CategoryResult) :
    List Recommendation :=
  let highPriority :=
    ((((croAnalysis ++ uxAnalysis).map (fun cat => cat.questions)).flatten).filter
      (fun q => q.priority == "high" && q.answer != "yes")).take 5
  let highRecs := highPriority.map (fun q =>
    { title := "Fix: " ++ q.question,
      description := q.recommendation,
      priority := "high", impact := "High", effort := "Medium",
      category :=
        if croAnalysis.any (fun cat => cat.questions.contains q) then "cro" else "ux"
      : Recommendation })
  let mediumPriority :=
    ((((croAnalysis ++ uxAnalysis).map (fun cat => cat.questions)).flatten).filter
      (fun q => q.priority == "medium" && q.answer != "yes")).take 3
  let mediumRecs := mediumPriority.map (fun q =>
    { title := "Improve: " ++ q.question,
      description := q.recommendation,
      priority := "medium", impact := "Medium", effort := "Low",
      category :=
        if croAnalysis.any (fun cat => cat.questions.contains q) then "cro" else "ux"
      : Recommendation })
  highRecs ++ mediumRecs

/-- The final result object of `POST` (`route.ts` lines 644-653; the
timestamp is a wall-clock side effect and is omitted). -/
structure AnalysisResult where
  url : String
  croScore : ℤ
  uxScore : ℤ
  overallGrade : String
  croAnalysis : List CategoryResult
  uxAnalysis : List CategoryResult
  recommendations : List Recommendation
deriving DecidableEq

/-- The analysis phase of `POST` after a successful fetch
(`route.ts` lines 593-653). -/
def runAnalysis (backend : Nat → AIOutcome) (url : String) (content : ContentSummary) :
    AnalysisResult :=
  let croResults := runCategories backend 0 content CRO_QUESTIONS
  let uxResults := runCategories backend CRO_QUESTIONS.length content UX_QUESTIONS
  let croScore := jsRound (calculateScore ((croResults.map (fun c => c.questions)).flatten))
  let uxScore := jsRound (calculateScore ((uxResults.map (fun c => c.questions)).flatten))
  { url := url,
    croScore := croScore,
    uxScore := uxScore,
    overallGrade := calculateOverallGrade (croScore : ℚ) (uxScore : ℚ),
    croAnalysis := croResults,
    uxAnalysis := uxResults,
    recommendations := generateRecommendations croResults uxResults }

/-- The distinct failure kinds discriminated by the catch block of
`fetchWebsiteContent` (`route.ts` lines 200-215). -/
inductive FetchErrorKind where
  | connRefused : FetchErrorKind
  | hostNotFound : FetchErrorKind
  | forbidden403 : FetchErrorKind
  | notFound404 : FetchErrorKind
  | timedOut : FetchErrorKind
  | otherCause : String → FetchErrorKind
deriving DecidableEq

/-- The message of the error re-thrown by `fetchWebsiteContent` for each
failure kind. -/
def fetchErrorMessage : FetchErrorKind → String
  | .connRefused =>
      "Connection refused. The website may be blocking requests or is not accessible."
  | .hostNotFound => "Website not found. Please check the URL and try again."
  | .forbidden403 => "Access forbidden. The website is blocking automated requests."
  | .notFound404 => "Page not found. Please check the URL and try again."
  | .timedOut => "Request timed out. The website may be slow or unresponsive."
  | .otherCause msg => "Failed to fetch website content: " ++ msg

/-- Outcome of the axios GET performed by `fetchWebsiteContent`. -/
inductive FetchOutcome where
  | ok : ContentSummary → FetchOutcome
  | fetchErr : FetchErrorKind → FetchOutcome
deriving DecidableEq

/-- `fetchWebsiteContent` (`route.ts` lines 130-216): returns the extracted
summary on success and throws a distinguishing error otherwise. -/
def fetchWebsiteContent : FetchOutcome → Except String ContentSummary
  | .ok content => .ok content
  | .fetchErr kind => .error (fetchErrorMessage kind)

/-- What `POST` sends back: a result, or an error body with an HTTP status. -/
inductive PostResponse where
  | ok : AnalysisResult → PostResponse
  | err : String → Nat → PostResponse
deriving DecidableEq

/-- The `POST` route handler (`route.ts` lines 534-707).  `url?` is the
parsed request body's url field (`none` when absent; the empty string is
also rejected, as `!url` is true for it), `urlValid` models whether
`new URL(url)` succeeds, and the outer catch turns any fetch failure into
the generic 500 response. -/
def POST (urlField : Option String) (urlValid : Bool) (fetch : FetchOutcome)
    (backend : Nat → AIOutcome) : PostResponse :=
  match urlField with
  | none => .err "URL is required" 400
  | some url =>
    if url = "" then .err "URL is required" 400
    else if !urlValid then .err "Invalid URL format" 400
    else
      match fetchWebsiteContent fetch with
      | .error _ => .err "Analysis failed. Please try again." 500
      | .ok content => .ok (runAnalysis backend url content)

theorem foldl_add_shift (l : List ℚ) (a : ℚ) :
    l.foldl (· + ·) a = a + l.foldl (· + ·) 0 := by
  induction l generalizing a with
  | nil => simp
  | cons b l ih =>
      simp only [List.foldl_cons]
      rw [ih (a + b), ih (0 + b)]
      ring

theorem calculateScore_cons (q : AnsweredQuestion) (qs : List AnsweredQuestion) :
    calculateScore (q :: qs) = pointValue q.answer + calculateScore qs := by
  simp only [calculateScore, List.map_cons, List.foldl_cons]
  rw [foldl_add_shift]
  ring_nf

theorem pointValue_nonneg (a : String) : 0 ≤ pointValue a := by
  unfold pointValue
  split_ifs <;> norm_num

theorem pointValue_le_one (a : String) : pointValue a ≤ 1 := by
  unfold pointValue
  split_ifs <;> norm_num

theorem calculateScore_nonneg (qs : List AnsweredQuestion) : 0 ≤ calculateScore qs := by
  induction qs with
  | nil => simp [calculateScore]
  | cons q qs ih =>
      rw [calculateScore_cons]
      have := pointValue_nonneg q.answer
      linarith

theorem calculateScore_le_length (qs : List AnsweredQuestion) :
    calculateScore qs ≤ (qs.length : ℚ) := by
  induction qs with
  | nil => simp [calculateScore]
  | cons q qs ih =>
      rw [calculateScore_cons]
      have := pointValue_le_one q.answer
      simp only [List.length_cons]
      push_cast
      linarith

/-- C1: the overall grade is the stated pure function of the two scores,
with boundaries inclusive at each lower bound, and the three example
gradings hold. -/
theorem calculateOverallGrade_spec (c u : ℚ) :
    (calculateOverallGrade c u = "A" ↔ 9/10 ≤ (c / 15) * (1/2) + (u / 18) * (1/2))
    ∧ (calculateOverallGrade c u = "B" ↔
        8/10 ≤ (c / 15) * (1/2) + (u / 18) * (1/2)
        ∧ (c / 15) * (1/2) + (u / 18) * (1/2) < 9/10)
    ∧ (calculateOverallGrade c u = "C" ↔
        7/10 ≤ (c / 15) * (1/2) + (u / 18) * (1/2)
        ∧ (c / 15) * (1/2) + (u / 18) * (1/2) < 8/10)
    ∧ (calculateOverallGrade c u = "D" ↔
        6/10 ≤ (c / 15) * (1/2) + (u / 18) * (1/2)
        ∧ (c / 15) * (1/2) + (u / 18) * (1/2) < 7/10)
    ∧ (calculateOverallGrade c u = "F" ↔ (c / 15) * (1/2) + (u / 18) * (1/2) < 6/10)
    ∧ calculateOverallGrade 15 18 = "A"
    ∧ calculateOverallGrade 0 0 = "F"
    ∧ calculateOverallGrade 12 12 = "C" := by
  refine ⟨?_, ?_, ?_, ?_, ?_, by norm_num [calculateOverallGrade],
    by norm_num [calculateOverallGrade], by norm_num [calculateOverallGrade]⟩ <;>
  · simp only [calculateOverallGrade, ge_iff_le]
    split_ifs with h1 h2 h3 h4 <;> simp <;>
      first
        | linarith
        | (intro hh; linarith)
        | exact ⟨by linarith, by linarith⟩

theorem calculateScore_all_needs_work (qs : List AnsweredQuestion)
    (h : ∀ q ∈ qs, q.answer = "needs_work") :
    calculateScore qs = (qs.length : ℚ) / 2 := by
  induction qs with
  | nil => simp [calculateScore]
  | cons q qs ih =>
      rw [calculateScore_cons, ih (fun x hx => h x (List.mem_cons_of_mem q hx))]
      have hq : q.answer = "needs_work" := h q (List.mem_cons_self q qs)
      simp only [pointValue, hq, List.length_cons]
      rw [if_neg (show ¬("needs_work" = "yes") by decide), if_pos trivial]
      push_cast
      ring

/-- C10: every score sum is a multiple of one half, jsRound sends each
half-integer to the next integer up, and a run of 15 needs_work answers
sums to 7.5 and rounds to a croScore of 8. -/
theorem croScore_half_rounds_up :
    (∀ qs : List AnsweredQuestion, ∃ n : ℕ, calculateScore qs = (n : ℚ) / 2)
    ∧ (∀ n : ℕ, jsRound ((2 * n + 1 : ℚ) / 2) = n + 1)
    ∧ (∀ qs : List AnsweredQuestion, qs.length = 15 →
        (∀ q ∈ qs, q.answer = "needs_work") →
        calculateScore qs = 15 / 2 ∧ jsRound (calculateScore qs) = 8) := by
  refine ⟨?_, ?_, ?_⟩
  · intro qs
    induction qs with
    | nil => exact ⟨0, by simp [calculateScore]⟩
    | cons q qs ih =>
        obtain ⟨n, hn⟩ := ih
        rw [calculateScore_cons, hn]
        unfold pointValue
        split_ifs
        · exact ⟨n + 2, by push_cast; ring⟩
        · exact ⟨n + 1, by push_cast; ring⟩
        · exact ⟨n, by ring⟩
        · exact ⟨n, by ring⟩
  · intro n
    have : ((2 * n + 1 : ℚ)) / 2 + 1 / 2 = ((n : ℚ) + 1) := by ring
    rw [jsRound, this]
    have : ((n : ℚ) + 1) = ((n + 1 : ℤ) : ℚ) := by push_cast; ring
    rw [this, Int.floor_intCast]
  · intro qs hlen hall
    have hs : calculateScore qs = 15 / 2 := by
      rw [calculateScore_all_needs_work qs hall, hlen]
      norm_num
    refine ⟨hs, ?_⟩
    rw [hs]
    norm_num [jsRound]

/-- Witness for C10 at a concrete list of 15 needs_work answers. -/
theorem croScore_half_rounds_up_witness :
    ((List.replicate 15
        ({ question := "q", answer := "needs_work", evidence := "e",
           recommendation := "r", priority := "medium" } : AnsweredQuestion)).length = 15
      ∧ (∀ q ∈ List.replicate 15
            ({ question := "q", answer := "needs_work", evidence := "e",
               recommendation := "r", priority := "medium" } : AnsweredQuestion),
          q.answer = "needs_work"))
    ∧ calculateScore (List.replicate 15
        ({ question := "q", answer := "needs_work", evidence := "e",
           recommendation := "r", priority := "medium" } : AnsweredQuestion)) = 15 / 2
    ∧ jsRound (calculateScore (List.replicate 15
        ({ question := "q", answer := "needs_work", evidence := "e",
           recommendation := "r", priority := "medium" } : AnsweredQuestion))) = 8 := by
  have h1 : (List.replicate 15
      ({ question := "q", answer := "needs_work", evidence := "e",
         recommendation := "r", priority := "medium" } : AnsweredQuestion)).length = 15 := by
    simp
  have h2 : ∀ q ∈ List.replicate 15
      ({ question := "q", answer := "needs_work", evidence := "e",
         recommendation := "r", priority := "medium" } : AnsweredQuestion),
      q.answer = "needs_work" := by
    intro q hq
    rw [List.eq_of_mem_replicate hq]
  exact ⟨⟨h1, h2⟩, croScore_half_rounds_up.2.2 _ h1 h2⟩

/-- The answer given when no keyword rule fires (the initial values of the
`performFallbackAnalysis` loop body). -/
def defaultAnswer (question : String) : AnsweredQuestion :=
  { question := question, answer := "needs_work",
    evidence := "Basic analysis based on available content",
    recommendation := "Review this aspect manually for detailed insights",
    priority := "medium" }

/-- One row of the fallback policy table of the spec: a keyword class and
the outcome applied when it is the first class to match. -/
structure FallbackRule where
  keywords : List String
  handler : ContentSummary → String → AnsweredQuestion

def ruleValueProp (content : ContentSummary) (question : String) : AnsweredQuestion :=
  if content.title ≠ "" ∧ content.description ≠ "" then
    { question := question, answer := "yes",
      evidence := "Website has a title and description",
      recommendation := "Ensure your value proposition is prominently displayed above the fold",
      priority := "medium" }
  else defaultAnswer question

def ruleCta (content : ContentSummary) (question : String) : AnsweredQuestion :=
  if 0 < content.buttons then
    { question := question, answer := "yes",
      evidence := "Found " ++ toString content.buttons ++ " buttons/CTAs on the page",
      recommendation := "Ensure CTAs are clear, prominent, and action-oriented",
      priority := "medium" }
  else
    { question := question, answer := "no",
      evidence := "No buttons or CTAs detected",
      recommendation := "Add clear call-to-action buttons to guide user behavior",
      priority := "high" }

def ruleTestimonial (content : ContentSummary) (question : String) : AnsweredQuestion :=
  if (content.headings.map lowerCase).any (fun h =>
      strIncludes h "testimonial" || strIncludes h "review" || strIncludes h "customer") then
    { question := question, answer := "yes",
      evidence := "Found potential social proof content in headings",
      recommendation := "Ensure testimonials are prominently displayed and credible",
      priority := "medium" }
  else
    { question := question, answer := "no",
      evidence := "No testimonials or reviews detected",
      recommendation := "Add customer testimonials and reviews to build trust",
      priority := "medium" }

def ruleLeadForm (content : ContentSummary) (question : String) : AnsweredQuestion :=
  if 0 < content.forms then
    { question := question, answer := "yes",
      evidence := "Found " ++ toString content.forms ++ " forms on the page",
      recommendation := "Optimize forms for conversion with minimal fields and clear labels",
      priority := "medium" }
  else
    { question := question, answer := "no",
      evidence := "No forms detected",
      recommendation := "Add lead capture forms to collect visitor information",
      priority := "high" }

def ruleMobile (_content : ContentSummary) (question : String) : AnsweredQuestion :=
  { question := question, answer := "needs_work",
    evidence := "Mobile responsiveness requires manual testing",
    recommendation := "Test website on various mobile devices and screen sizes",
    priority := "medium" }

def ruleSpeed (_content : ContentSummary) (question : String) : AnsweredQuestion :=
  { question := question, answer := "needs_work",
    evidence := "Page speed requires performance testing tools",
    recommendation := "Use tools like Google PageSpeed Insights to measure and optimize loading speed",
    priority := "medium" }

def ruleAltText (content : ContentSummary) (question : String) : AnsweredQuestion :=
  let imagesWithAlt := (content.images.filter (fun i => i != "")).length
  let totalImages := content.images.length
  if 0 < totalImages then
    if imagesWithAlt = totalImages then
      { question := question, answer := "yes",
        evidence := "All " ++ toString totalImages ++ " images have alt text",
        recommendation := "Maintain accessibility standards for all new images",
        priority := "medium" }
    else
      { question := question, answer := "needs_work",
        evidence := toString imagesWithAlt ++ "/" ++ toString totalImages ++ " images have alt text",
        recommendation := "Add alt text to all images for better accessibility",
        priority := "medium" }
  else
    { question := question, answer := "needs_work",
      evidence := "No images detected to analyze",
      recommendation := "Ensure all images have descriptive alt text when added",
      priority := "medium" }

def ruleNavigation (content : ContentSummary) (question : String) : AnsweredQuestion :=
  if 0 < (content.headings.map lowerCase).length then
    { question := question, answer := "yes",
      evidence := "Found " ++ toString (content.headings.map lowerCase).length ++
        " headings indicating content structure",
      recommendation := "Ensure navigation follows logical information hierarchy",
      priority := "medium" }
  else
    { question := question, answer := "needs_work",
      evidence := "Limited heading structure detected",
      recommendation := "Improve content structure with proper heading hierarchy",
      priority := "medium" }

def ruleTracking (_content : ContentSummary) (question : String) : AnsweredQuestion :=
  { question := question, answer := "needs_work",
    evidence := "Analytics setup requires manual verification",
    recommendation := "Verify Google Analytics or other tracking tools are properly configured",
    priority := "medium" }

def ruleAbTesting (_content : ContentSummary) (question : String) : AnsweredQuestion :=
  { question := question, answer := "needs_work",
    evidence := "A/B testing setup requires manual verification",
    recommendation := "Consider implementing A/B testing tools like Optimizely or Google Optimize",
    priority := "medium" }

def ruleUrgency (content : ContentSummary) (question : String) : AnsweredQuestion :=
  if (content.headings.map lowerCase).any (fun h =>
      strIncludes h "limited" || strIncludes h "offer" || strIncludes h "sale" ||
      strIncludes h "time") then
    { question := question, answer := "yes",
      evidence := "Found potential urgency/scarcity elements in content",
      recommendation := "Ensure urgency elements are genuine and not misleading",
      priority := "medium" }
  else
    { question := question, answer := "no",
      evidence := "No urgency or scarcity elements detected",
      recommendation := "Consider adding limited-time offers or scarcity indicators",
      priority := "medium" }

def rulePricing (content : ContentSummary) (question : String) : AnsweredQuestion :=
  if (content.headings.map lowerCase).any (fun h =>
      strIncludes h "price" || strIncludes h "cost" || strIncludes h "fee" ||
      strIncludes h "$") then
    { question := question, answer := "yes",
      evidence := "Found potential pricing information in content",
      recommendation := "Ensure pricing is clear, transparent, and easy to understand",
      priority := "medium" }
  else
    { question := question, answer := "needs_work",
      evidence := "Pricing information not clearly detected",
      recommendation := "Make pricing information clear and accessible to visitors",
      priority := "medium" }

/-- The fallback policy table in the fixed order of the spec (section 4.2a)
and of the source's if/else chain. -/
def fallbackRules : List FallbackRule :=
  [ ⟨["value proposition", "clear"], ruleValueProp⟩,
    ⟨["call-to-action", "cta"], ruleCta⟩,
    ⟨["testimonial", "review"], ruleTestimonial⟩,
    ⟨["form", "lead capture"], ruleLeadForm⟩,
    ⟨["mobile", "responsive"], ruleMobile⟩,
    ⟨["speed", "load"], ruleSpeed⟩,
    ⟨["accessibility", "alt text"], ruleAltText⟩,
    ⟨["navigation", "hierarchy"], ruleNavigation⟩,
    ⟨["tracking", "analytics"], ruleTracking⟩,
    ⟨["a/b testing", "experiment"], ruleAbTesting⟩,
    ⟨["urgency", "scarcity"], ruleUrgency⟩,
    ⟨["pricing", "cost"], rulePricing⟩ ]

/-- First-match-wins application of a rule table, as the spec words it:
the first class whose keyword occurs in the lower-cased question text
determines the answer; no match gives the default. -/
def applyRules (content : ContentSummary) (question : String) :
    List FallbackRule → AnsweredQuestion
  | [] => defaultAnswer question
  | r :: rs =>
      if r.keywords.any (fun k => strIncludes (lowerCase question) k) then
        r.handler content question
      else applyRules content question rs

theorem applyRules_no_match (content : ContentSummary) (question : String)
    (rules : List FallbackRule)
    (h : rules.all (fun r =>
      r.keywords.all (fun k => !(strIncludes (lowerCase question) k))) = true) :
    applyRules content question rules = defaultAnswer question := by
  induction rules with
  | nil => rfl
  | cons r rs ih =>
      simp only [List.all_cons, Bool.and_eq_true] at h
      have hcond : r.keywords.any (fun k => strIncludes (lowerCase question) k) = false := by
        rw [List.any_eq_false]
        intro k hk
        have := (List.all_eq_true.mp h.1) k hk
        simpa using this
      simp only [applyRules, hcond, Bool.false_eq_true, if_false]
      exact ih h.2

theorem fallback_eq_rules (content : ContentSummary) (question : String) :
    fallbackAnswer content question = applyRules content question fallbackRules := by
  simp only [fallbackAnswer, applyRules, fallbackRules, List.any_cons, List.any_nil,
    Bool.or_false, ruleValueProp, ruleCta, ruleTestimonial, ruleLeadForm, ruleMobile,
    ruleSpeed, ruleAltText, ruleNavigation, ruleTracking, ruleAbTesting, ruleUrgency,
    rulePricing, defaultAnswer]

/-- C4: the heuristic fallback is exactly the first-match evaluation of the
fixed rule table, and a question matching no keyword class gets exactly the
default needs_work / generic advice / medium priority answer. -/
theorem fallback_is_first_match (content : ContentSummary) (question : String) :
    fallbackAnswer content question = applyRules content question fallbackRules
    ∧ (fallbackRules.all (fun r =>
        r.keywords.all (fun k => !(strIncludes (lowerCase question) k))) = true →
      fallbackAnswer content question = defaultAnswer question) :=
  ⟨fallback_eq_rules content question,
    fun h => (fallback_eq_rules content question).trans
      (applyRules_no_match content question fallbackRules h)⟩

/-- Witness for C4: a question text matching no keyword class (the broken
links question of the UX bank) gets the default answer. -/
theorem fallback_is_first_match_witness :
    (fallbackRules.all (fun r =>
        r.keywords.all (fun k =>
          !(strIncludes (lowerCase "Are there any broken links or 404 errors?") k))) = true)
    ∧ fallbackAnswer ⟨"t", "d", [], [], [], 0, 0⟩ "Are there any broken links or 404 errors?"
      = defaultAnswer "Are there any broken links or 404 errors?" :=
  ⟨by decide,
    (fallback_is_first_match ⟨"t", "d", [], [], [], 0, 0⟩
      "Are there any broken links or 404 errors?").2 (by decide)⟩

theorem str_data_nil (a : String) (h : a.data = []) : a = "" := by
  cases a with
  | mk d =>
      simp only at h
      rw [h]

theorem str_append_left_ne (a b : String) (h : a ≠ "") : a ++ b ≠ "" := by
  intro hc
  apply h
  have hd : a.data ++ b.data = [] := by
    rw [← String.data_append a b, hc]
  exact str_data_nil a (List.append_eq_nil.mp hd).1

theorem str_append_right_ne (a b : String) (h : b ≠ "") : a ++ b ≠ "" := by
  intro hc
  apply h
  have hd : a.data ++ b.data = [] := by
    rw [← String.data_append a b, hc]
  exact str_data_nil b (List.append_eq_nil.mp hd).2

/-- Well-formedness of one answered question relative to its input
question text: the text is echoed back, answer and priority are from the
allowed enums, evidence and recommendation are nonempty. -/
def wfAnswer (question : String) (aq : AnsweredQuestion) : Prop :=
  aq.question = question
  ∧ (aq.answer = "yes" ∨ aq.answer = "no" ∨ aq.answer = "needs_work")
  ∧ aq.evidence ≠ ""
  ∧ aq.recommendation ≠ ""
  ∧ (aq.priority = "high" ∨ aq.priority = "medium" ∨ aq.priority = "low")

theorem defaultAnswer_wf (question : String) : wfAnswer question (defaultAnswer question) := by
  dsimp only [wfAnswer, defaultAnswer]
  exact ⟨rfl, by decide, by decide, by decide, by decide⟩

theorem ruleValueProp_wf (c : ContentSummary) (q : String) : wfAnswer q (ruleValueProp c q) := by
  dsimp only [wfAnswer, ruleValueProp, defaultAnswer]
  split_ifs <;> dsimp only <;> exact ⟨rfl, by decide, by decide, by decide, by decide⟩

theorem ruleCta_wf (c : ContentSummary) (q : String) : wfAnswer q (ruleCta c q) := by
  dsimp only [wfAnswer, ruleCta]
  split_ifs <;> dsimp only <;>
    refine ⟨rfl, by decide, ?_, by decide, by decide⟩ <;>
      first
        | decide
        | exact str_append_right_ne _ _ (by decide)

theorem ruleTestimonial_wf (c : ContentSummary) (q : String) :
    wfAnswer q (ruleTestimonial c q) := by
  dsimp only [wfAnswer, ruleTestimonial]
  split_ifs <;> dsimp only <;> exact ⟨rfl, by decide, by decide, by decide, by decide⟩

theorem ruleLeadForm_wf (c : ContentSummary) (q : String) : wfAnswer q (ruleLeadForm c q) := by
  dsimp only [wfAnswer, ruleLeadForm]
  split_ifs <;> dsimp only <;>
    refine ⟨rfl, by decide, ?_, by decide, by decide⟩ <;>
      first
        | decide
        | exact str_append_right_ne _ _ (by decide)

theorem ruleMobile_wf (c : ContentSummary) (q : String) : wfAnswer q (ruleMobile c q) := by
  dsimp only [wfAnswer, ruleMobile]
  exact ⟨rfl, by decide, by decide, by decide, by decide⟩

theorem ruleSpeed_wf (c : ContentSummary) (q : String) : wfAnswer q (ruleSpeed c q) := by
  dsimp only [wfAnswer, ruleSpeed]
  exact ⟨rfl, by decide, by decide, by decide, by decide⟩

theorem ruleAltText_wf (c : ContentSummary) (q : String) : wfAnswer q (ruleAltText c q) := by
  dsimp only [wfAnswer, ruleAltText]
  split_ifs <;> dsimp only <;>
    refine ⟨rfl, by decide, ?_, by decide, by decide⟩ <;>
      first
        | decide
        | exact str_append_right_ne _ _ (by decide)

theorem ruleNavigation_wf (c : ContentSummary) (q : String) :
    wfAnswer q (ruleNavigation c q) := by
  dsimp only [wfAnswer, ruleNavigation]
  split_ifs <;> dsimp only <;>
    refine ⟨rfl, by decide, ?_, by decide, by decide⟩ <;>
      first
        | decide
        | exact str_append_right_ne _ _ (by decide)

theorem ruleTracking_wf (c : ContentSummary) (q : String) : wfAnswer q (ruleTracking c q) := by
  dsimp only [wfAnswer, ruleTracking]
  exact ⟨rfl, by decide, by decide, by decide, by decide⟩

theorem ruleAbTesting_wf (c : ContentSummary) (q : String) : wfAnswer q (ruleAbTesting c q) := by
  dsimp only [wfAnswer, ruleAbTesting]
  exact ⟨rfl, by decide, by decide, by decide, by decide⟩

theorem ruleUrgency_wf (c : ContentSummary) (q : String) : wfAnswer q (ruleUrgency c q) := by
  dsimp only [wfAnswer, ruleUrgency]
  split_ifs <;> dsimp only <;> exact ⟨rfl, by decide, by decide, by decide, by decide⟩

theorem rulePricing_wf (c : ContentSummary) (q : String) : wfAnswer q (rulePricing c q) := by
  dsimp only [wfAnswer, rulePricing]
  split_ifs <;> dsimp only <;> exact ⟨rfl, by decide, by decide, by decide, by decide⟩

theorem fallbackRules_handlers_wf :
    ∀ r ∈ fallbackRules, ∀ (c : ContentSummary) (q : String), wfAnswer q (r.handler c q) := by
  intro r hr
  fin_cases hr
  · exact ruleValueProp_wf
  · exact ruleCta_wf
  · exact ruleTestimonial_wf
  · exact ruleLeadForm_wf
  · exact ruleMobile_wf
  · exact ruleSpeed_wf
  · exact ruleAltText_wf
  · exact ruleNavigation_wf
  · exact ruleTracking_wf
  · exact ruleAbTesting_wf
  · exact ruleUrgency_wf
  · exact rulePricing_wf

theorem applyRules_wf (c : ContentSummary) (q : String) (rules : List FallbackRule)
    (h : ∀ r ∈ rules, ∀ (c : ContentSummary) (q : String), wfAnswer q (r.handler c q)) :
    wfAnswer q (applyRules c q rules) := by
  induction rules with
  | nil => exact defaultAnswer_wf q
  | cons r rs ih =>
      simp only [applyRules]
      split_ifs
      · exact h r (List.mem_cons_self r rs) c q
      · exact ih (fun r' hr' => h r' (List.mem_cons_of_mem r hr'))

theorem fallbackAnswer_wf (content : ContentSummary) (question : String) :
    wfAnswer question (fallbackAnswer content question) := by
  rw [fallback_eq_rules]
  exact applyRules_wf content question fallbackRules fallbackRules_handlers_wf

theorem failureEvidence_ne (msg : String) : failureEvidence msg ≠ "" := by
  unfold failureEvidence
  split_ifs <;> decide

theorem failureRecommendation_ne (msg : String) : failureRecommendation msg ≠ "" := by
  unfold failureRecommendation
  split_ifs <;> decide

/-- C6: whenever the model backend is unavailable (no API key) or its call
or response parsing fails, the evaluator returns exactly one answered
question per input question, in input order, each with an answer from
yes/no/needs_work, nonempty evidence and recommendation and an allowed
priority; as a total function it propagates no exception. -/
theorem evaluator_fallback_guarantee (outcome : AIOutcome) (content : ContentSummary)
    (questions : List String)
    (h : outcome = .unavailable ∨ ∃ msg, outcome = .failure msg) :
    (analyzeWithAI outcome content questions).map (fun aq => aq.question) = questions
    ∧ ∀ aq ∈ analyzeWithAI outcome content questions,
        (aq.answer = "yes" ∨ aq.answer = "no" ∨ aq.answer = "needs_work")
        ∧ aq.evidence ≠ ""
        ∧ aq.recommendation ≠ ""
        ∧ (aq.priority = "high" ∨ aq.priority = "medium" ∨ aq.priority = "low") := by
  rcases h with h | ⟨msg, h⟩ <;> subst h
  · constructor
    · simp only [analyzeWithAI, performFallbackAnalysis, List.map_map]
      have heta : (fun aq => aq.question) ∘ fallbackAnswer content = fun q => q := by
        funext q
        exact (fallbackAnswer_wf content q).1
      rw [heta]
      simp
    · intro aq haq
      simp only [analyzeWithAI, performFallbackAnalysis, List.mem_map] at haq
      obtain ⟨q, _, rfl⟩ := haq
      exact (fallbackAnswer_wf content q).2
  · constructor
    · simp only [analyzeWithAI, List.map_map]
      have heta : ((fun aq => aq.question) ∘ fun q =>
          ({ question := q, answer := "needs_work", evidence := failureEvidence msg,
             recommendation := failureRecommendation msg,
             priority := "medium" } : AnsweredQuestion)) = fun q => q := rfl
      rw [heta]
      simp
    · intro aq haq
      simp only [analyzeWithAI, List.mem_map] at haq
      obtain ⟨q, _, rfl⟩ := haq
      exact ⟨Or.inr (Or.inr rfl), failureEvidence_ne msg, failureRecommendation_ne msg,
        Or.inr (Or.inl rfl)⟩

/-- Witness for C6: the no-key path on a concrete content and question list. -/
theorem evaluator_fallback_guarantee_witness :
    ((AIOutcome.unavailable = AIOutcome.unavailable
        ∨ ∃ msg, AIOutcome.unavailable = AIOutcome.failure msg)
      ∧ (analyzeWithAI .unavailable ⟨"t", "d", [], [], [], 1, 1⟩
          ["Is there proper conversion tracking set up?"]).map (fun aq => aq.question)
        = ["Is there proper conversion tracking set up?"])
    ∧ ∀ aq ∈ analyzeWithAI .unavailable ⟨"t", "d", [], [], [], 1, 1⟩
        ["Is there proper conversion tracking set up?"],
        (aq.answer = "yes" ∨ aq.answer = "no" ∨ aq.answer = "needs_work")
        ∧ aq.evidence ≠ ""
        ∧ aq.recommendation ≠ ""
        ∧ (aq.priority = "high" ∨ aq.priority = "medium" ∨ aq.priority = "low") := by
  have h := evaluator_fallback_guarantee .unavailable ⟨"t", "d", [], [], [], 1, 1⟩
    ["Is there proper conversion tracking set up?"] (Or.inl rfl)
  exact ⟨⟨Or.inl rfl, h.1⟩, h.2⟩

theorem fallback_alt_question (content : ContentSummary) :
    fallbackAnswer content "Are there proper alt texts for images?"
      = ruleAltText content "Are there proper alt texts for images?" := rfl

/-- C9: the content extractor only keeps nonempty alt texts, so the
partial-coverage branch of the accessibility heuristic is unreachable:
with extractor-produced images the accessibility question answers yes
whenever images is nonempty (in particular for ["logo", "banner"]) and
needs_work when images is empty. -/
theorem alt_text_partial_branch_unreachable :
    (∀ alts : List String, ∀ a ∈ extractImages alts, a ≠ "")
    ∧ (∀ content : ContentSummary, (∀ a ∈ content.images, a ≠ "") →
        (content.images ≠ [] →
          (fallbackAnswer content "Are there proper alt texts for images?").answer = "yes")
        ∧ (content.images = [] →
          (fallbackAnswer content "Are there proper alt texts for images?").answer
            = "needs_work"))
    ∧ (fallbackAnswer ⟨"", "", [], [], ["logo", "banner"], 0, 0⟩
        "Are there proper alt texts for images?").answer = "yes" := by
  refine ⟨?_, ?_, by decide⟩
  · intro alts a ha
    have h := List.mem_filter.mp ha
    simpa using h.2
  · intro content hall
    rw [fallback_alt_question]
    constructor
    · intro hne
      have hfilter : content.images.filter (fun i => i != "") = content.images := by
        rw [List.filter_eq_self]
        intro a ha
        simpa using hall a ha
      have hlen : 0 < content.images.length := List.length_pos.mpr hne
      simp only [ruleAltText, hfilter, if_pos hlen]
      simp
    · intro hnil
      simp only [ruleAltText, hnil]
      simp

/-- Witness for C9 at a concrete single-image content. -/
theorem alt_text_partial_branch_unreachable_witness :
    ((∀ a ∈ (⟨"", "", [], [], ["logo"], 0, 0⟩ : ContentSummary).images, a ≠ "")
      ∧ (⟨"", "", [], [], ["logo"], 0, 0⟩ : ContentSummary).images ≠ [])
    ∧ (fallbackAnswer ⟨"", "", [], [], ["logo"], 0, 0⟩
        "Are there proper alt texts for images?").answer = "yes" := by
  have h1 : ∀ a ∈ (⟨"", "", [], [], ["logo"], 0, 0⟩ : ContentSummary).images, a ≠ "" := by
    decide
  have h2 : (⟨"", "", [], [], ["logo"], 0, 0⟩ : ContentSummary).images ≠ [] := by decide
  exact ⟨⟨h1, h2⟩,
    (alt_text_partial_branch_unreachable.2.1 ⟨"", "", [], [], ["logo"], 0, 0⟩ h1).1 h2⟩

/-- The evaluator contract at the model boundary (spec section 4.2): a
parsed model response has exactly one entry per input question.  The
fallback and error paths satisfy it by construction. -/
def wfOutcome : AIOutcome → List String → Prop
  | .success resp, questions => resp.length = questions.length
  | _, _ => True

theorem analyzeWithAI_length (outcome : AIOutcome) (content : ContentSummary)
    (questions : List String) (h : wfOutcome outcome questions) :
    (analyzeWithAI outcome content questions).length = questions.length := by
  cases outcome with
  | unavailable => simp [analyzeWithAI, performFallbackAnalysis]
  | failure msg => simp [analyzeWithAI]
  | success resp => exact h

theorem jsRound_nat_bounds (x : ℚ) (n : ℕ) (h0 : 0 ≤ x) (h1 : x ≤ (n : ℚ)) :
    0 ≤ jsRound x ∧ jsRound x ≤ (n : ℤ) := by
  simp only [jsRound]
  constructor
  · exact Int.le_floor.mpr (by push_cast; linarith)
  · have hlt : x + 1/2 < (((n : ℤ) + 1 : ℤ) : ℚ) := by push_cast; linarith
    have := Int.floor_lt.mpr hlt
    omega

/-- C2: a category result's score is an integer percentage in [0,100] equal
to round(point-value sum / question count x 100), with the count taken over
the category's answered questions (equivalently its input questions, the
evaluator contract making both counts agree). -/
theorem categoryResult_score_spec (outcome : AIOutcome) (content : ContentSummary)
    (cat : Category) (hwf : wfOutcome outcome cat.questions) (hne : cat.questions ≠ []) :
    0 ≤ (runCategory outcome content cat).score
    ∧ (runCategory outcome content cat).score ≤ 100
    ∧ (runCategory outcome content cat).score
      = jsRound ((calculateScore (runCategory outcome content cat).questions
          / ((runCategory outcome content cat).questions.length : ℚ)) * 100) := by
  have hlen : (analyzeWithAI outcome content cat.questions).length = cat.questions.length :=
    analyzeWithAI_length outcome content cat.questions hwf
  have hscore : (runCategory outcome content cat).score
      = jsRound ((calculateScore (analyzeWithAI outcome content cat.questions)
          / (cat.questions.length : ℚ)) * 100) := rfl
  have hq : (runCategory outcome content cat).questions
      = analyzeWithAI outcome content cat.questions := rfl
  have hnpos : 0 < (cat.questions.length : ℚ) := by
    have : cat.questions.length ≠ 0 := fun hc => hne (List.length_eq_zero.mp hc)
    have : 0 < cat.questions.length := Nat.pos_of_ne_zero this
    exact_mod_cast this
  have hs0 : 0 ≤ calculateScore (analyzeWithAI outcome content cat.questions) :=
    calculateScore_nonneg _
  have hs1 : calculateScore (analyzeWithAI outcome content cat.questions)
      ≤ (cat.questions.length : ℚ) := by
    have := calculateScore_le_length (analyzeWithAI outcome content cat.questions)
    rwa [hlen] at this
  have hx0 : 0 ≤ (calculateScore (analyzeWithAI outcome content cat.questions)
      / (cat.questions.length : ℚ)) * 100 := by positivity
  have hx1 : (calculateScore (analyzeWithAI outcome content cat.questions)
      / (cat.questions.length : ℚ)) * 100 ≤ ((100 : ℕ) : ℚ) := by
    have hdiv : calculateScore (analyzeWithAI outcome content cat.questions)
        / (cat.questions.length : ℚ) ≤ 1 := by
      rw [div_le_one hnpos]
      exact hs1
    push_cast
    nlinarith
  obtain ⟨hb0, hb1⟩ := jsRound_nat_bounds _ 100 hx0 hx1
  refine ⟨?_, ?_, ?_⟩
  · rw [hscore]; exact_mod_cast hb0
  · rw [hscore]; exact_mod_cast hb1
  · rw [hscore, hq, hlen]

/-- Witness for C2: the first CRO category evaluated by the fallback on a
concrete content. -/
theorem categoryResult_score_spec_witness :
    (wfOutcome .unavailable
        (Category.questions ⟨"Offers & Messaging",
          ["Is there a clear, compelling value proposition above the fold?"]⟩)
      ∧ Category.questions (⟨"Offers & Messaging",
          ["Is there a clear, compelling value proposition above the fold?"]⟩ : Category) ≠ [])
    ∧ 0 ≤ (runCategory .unavailable ⟨"t", "d", [], [], [], 0, 0⟩
        ⟨"Offers & Messaging",
          ["Is there a clear, compelling value proposition above the fold?"]⟩).score
    ∧ (runCategory .unavailable ⟨"t", "d", [], [], [], 0, 0⟩
        ⟨"Offers & Messaging",
          ["Is there a clear, compelling value proposition above the fold?"]⟩).score ≤ 100
    ∧ (runCategory .unavailable ⟨"t", "d", [], [], [], 0, 0⟩
        ⟨"Offers & Messaging",
          ["Is there a clear, compelling value proposition above the fold?"]⟩).score
      = jsRound ((calculateScore (runCategory .unavailable ⟨"t", "d", [], [], [], 0, 0⟩
            ⟨"Offers & Messaging",
              ["Is there a clear, compelling value proposition above the fold?"]⟩).questions
          / ((runCategory .unavailable ⟨"t", "d", [], [], [], 0, 0⟩
              ⟨"Offers & Messaging",
                ["Is there a clear, compelling value proposition above the fold?"]⟩).questions.length : ℚ))
          * 100) := by
  have h := categoryResult_score_spec .unavailable ⟨"t", "d", [], [], [], 0, 0⟩
    ⟨"Offers & Messaging", ["Is there a clear, compelling value proposition above the fold?"]⟩
    trivial (by decide)
  exact ⟨⟨trivial, by decide⟩, h.1, h.2.1, h.2.2⟩

/-- The evaluator contract assumed for every sequential model call of one
analysis run (7 CRO categories then 8 UX categories). -/
def bankOutcomesWf (backend : Nat → AIOutcome) : Prop :=
  ∀ i cat, (CRO_QUESTIONS ++ UX_QUESTIONS)[i]? = some cat →
    wfOutcome (backend i) cat.questions

theorem runCategories_flat_length (backend : Nat → AIOutcome) (base : Nat)
    (content : ContentSummary) (cats : List Category)
    (h : ∀ i cat, cats[i]? = some cat → wfOutcome (backend (base + i)) cat.questions) :
    ((((runCategories backend base content cats).map (fun c => c.questions)).flatten).length)
      = (((cats.map (fun c => c.questions)).flatten).length) := by
  induction cats generalizing base with
  | nil => rfl
  | cons cat cats ih =>
      have h0 : wfOutcome (backend base) cat.questions := by
        have := h 0 cat (by simp)
        simpa using this
      have hrest : ∀ i cat', cats[i]? = some cat' →
          wfOutcome (backend (base + 1 + i)) cat'.questions := by
        intro i cat' hi
        have := h (i + 1) cat' (by simpa using hi)
        rwa [show base + (i + 1) = base + 1 + i by omega] at this
      simp only [runCategories, List.map_cons, List.flatten_cons, List.length_append]
      rw [ih (base + 1) hrest]
      congr 1
      exact analyzeWithAI_length (backend base) content cat.questions h0

theorem calculateScore_append (a b : List AnsweredQuestion) :
    calculateScore (a ++ b) = calculateScore a + calculateScore b := by
  induction a with
  | nil => simp [calculateScore]
  | cons q qs ih =>
      rw [List.cons_append, calculateScore_cons, calculateScore_cons, ih]
      ring

/-- C3: in every analysis result obtained under the evaluator contract, the
CRO and UX scores are the rounded point-value sums over exactly 15 and 18
answered questions respectively, and are integers in [0,15] and [0,18]. -/
theorem analysis_scores_spec (backend : Nat → AIOutcome) (url : String)
    (content : ContentSummary) (hwf : bankOutcomesWf backend) :
    ((((runAnalysis backend url content).croAnalysis.map (fun c => c.questions)).flatten).length = 15)
    ∧ ((((runAnalysis backend url content).uxAnalysis.map (fun c => c.questions)).flatten).length = 18)
    ∧ (runAnalysis backend url content).croScore
      = jsRound (calculateScore
          (((runAnalysis backend url content).croAnalysis.map (fun c => c.questions)).flatten))
    ∧ (runAnalysis backend url content).uxScore
      = jsRound (calculateScore
          (((runAnalysis backend url content).uxAnalysis.map (fun c => c.questions)).flatten))
    ∧ 0 ≤ (runAnalysis backend url content).croScore
    ∧ (runAnalysis backend url content).croScore ≤ 15
    ∧ 0 ≤ (runAnalysis backend url content).uxScore
    ∧ (runAnalysis backend url content).uxScore ≤ 18 := by
  have hcroA : (runAnalysis backend url content).croAnalysis
      = runCategories backend 0 content CRO_QUESTIONS := rfl
  have huxA : (runAnalysis backend url content).uxAnalysis
      = runCategories backend CRO_QUESTIONS.length content UX_QUESTIONS := rfl
  have hcro : ∀ i cat, CRO_QUESTIONS[i]? = some cat →
      wfOutcome (backend (0 + i)) cat.questions := by
    intro i cat hi
    have hlt : i < CRO_QUESTIONS.length := by
      by_contra hge
      rw [List.getElem?_eq_none (by omega)] at hi
      exact Option.noConfusion hi
    have happ : (CRO_QUESTIONS ++ UX_QUESTIONS)[i]? = some cat := by
      rw [List.getElem?_append]
      simp [hlt, hi]
    have := hwf i cat happ
    rwa [Nat.zero_add]
  have hux : ∀ i cat, UX_QUESTIONS[i]? = some cat →
      wfOutcome (backend (CRO_QUESTIONS.length + i)) cat.questions := by
    intro i cat hi
    apply hwf
    rw [List.getElem?_append]
    have : ¬(CRO_QUESTIONS.length + i < CRO_QUESTIONS.length) := by omega
    simp only [this, if_false]
    simpa using hi
  have hcroLen :
      ((((runAnalysis backend url content).croAnalysis.map (fun c => c.questions)).flatten).length = 15) := by
    rw [hcroA, runCategories_flat_length backend 0 content CRO_QUESTIONS hcro]
    decide
  have huxLen :
      ((((runAnalysis backend url content).uxAnalysis.map (fun c => c.questions)).flatten).length = 18) := by
    rw [huxA, runCategories_flat_length backend CRO_QUESTIONS.length content UX_QUESTIONS hux]
    decide
  have hcroS : (runAnalysis backend url content).croScore
      = jsRound (calculateScore
          (((runAnalysis backend url content).croAnalysis.map (fun c => c.questions)).flatten)) := rfl
  have huxS : (runAnalysis backend url content).uxScore
      = jsRound (calculateScore
          (((runAnalysis backend url content).uxAnalysis.map (fun c => c.questions)).flatten)) := rfl
  have hcroB := jsRound_nat_bounds
    (calculateScore (((runAnalysis backend url content).croAnalysis.map (fun c => c.questions)).flatten))
    15 (calculateScore_nonneg _)
    (by
      have := calculateScore_le_length
        (((runAnalysis backend url content).croAnalysis.map (fun c => c.questions)).flatten)
      rwa [hcroLen] at this)
  have huxB := jsRound_nat_bounds
    (calculateScore (((runAnalysis backend url content).uxAnalysis.map (fun c => c.questions)).flatten))
    18 (calculateScore_nonneg _)
    (by
      have := calculateScore_le_length
        (((runAnalysis backend url content).uxAnalysis.map (fun c => c.questions)).flatten)
      rwa [huxLen] at this)
  refine ⟨hcroLen, huxLen, hcroS, huxS, ?_, ?_, ?_, ?_⟩
  · rw [hcroS]; exact_mod_cast hcroB.1
  · rw [hcroS]; exact_mod_cast hcroB.2
  · rw [huxS]; exact_mod_cast huxB.1
  · rw [huxS]; exact_mod_cast huxB.2

/-- Witness for C3: the all-fallback run on a concrete content. -/
theorem analysis_scores_spec_witness :
    bankOutcomesWf (fun _ => .unavailable)
    ∧ ((((runAnalysis (fun _ => .unavailable) "https://example.com"
          ⟨"t", "d", [], [], [], 0, 0⟩).croAnalysis.map (fun c => c.questions)).flatten).length = 15)
    ∧ 0 ≤ (runAnalysis (fun _ => .unavailable) "https://example.com"
        ⟨"t", "d", [], [], [], 0, 0⟩).croScore
    ∧ (runAnalysis (fun _ => .unavailable) "https://example.com"
        ⟨"t", "d", [], [], [], 0, 0⟩).croScore ≤ 15
    ∧ 0 ≤ (runAnalysis (fun _ => .unavailable) "https://example.com"
        ⟨"t", "d", [], [], [], 0, 0⟩).uxScore
    ∧ (runAnalysis (fun _ => .unavailable) "https://example.com"
        ⟨"t", "d", [], [], [], 0, 0⟩).uxScore ≤ 18 := by
  have hwf : bankOutcomesWf (fun _ => .unavailable) := fun i cat _ => trivial
  have h := analysis_scores_spec (fun _ => .unavailable) "https://example.com"
    ⟨"t", "d", [], [], [], 0, 0⟩ hwf
  exact ⟨hwf, h.1, h.2.2.2.2.1, h.2.2.2.2.2.1, h.2.2.2.2.2.2.1, h.2.2.2.2.2.2.2⟩

/-- The first five high-priority unresolved findings, in CRO-then-UX
category order and question order within each category (spec section 4.4,
pass 1). -/
def highFindings (croAnalysis uxAnalysis : List CategoryResult) : List AnsweredQuestion :=
  ((((croAnalysis ++ uxAnalysis).map (fun cat => cat.questions)).flatten).filter
    (fun q => q.priority == "high" && q.answer != "yes")).take 5

/-- The first three medium-priority unresolved findings (spec section 4.4,
pass 2). -/
def mediumFindings (croAnalysis uxAnalysis : List CategoryResult) : List AnsweredQuestion :=
  ((((croAnalysis ++ uxAnalysis).map (fun cat => cat.questions)).flatten).filter
    (fun q => q.priority == "medium" && q.answer != "yes")).take 3

/-- C7: the recommendation list is the at-most-5 `Fix:` rows built from the
first high-priority non-yes findings followed by the at-most-3 `Improve:`
rows built from the first medium-priority non-yes findings: at most 8 rows,
all high rows before all medium rows, with the stated titles, impact and
effort, and nothing generated from low-priority findings. -/
theorem generateRecommendations_spec (croAnalysis uxAnalysis : List CategoryResult) :
    (generateRecommendations croAnalysis uxAnalysis).length ≤ 8
    ∧ (generateRecommendations croAnalysis uxAnalysis).length
      = (highFindings croAnalysis uxAnalysis).length
        + (mediumFindings croAnalysis uxAnalysis).length
    ∧ (highFindings croAnalysis uxAnalysis).length ≤ 5
    ∧ (mediumFindings croAnalysis uxAnalysis).length ≤ 3
    ∧ ((generateRecommendations croAnalysis uxAnalysis).take
          (highFindings croAnalysis uxAnalysis).length).map (fun r => r.title)
      = (highFindings croAnalysis uxAnalysis).map (fun q => "Fix: " ++ q.question)
    ∧ ((generateRecommendations croAnalysis uxAnalysis).drop
          (highFindings croAnalysis uxAnalysis).length).map (fun r => r.title)
      = (mediumFindings croAnalysis uxAnalysis).map (fun q => "Improve: " ++ q.question)
    ∧ (generateRecommendations croAnalysis uxAnalysis).map (fun r => r.priority)
      = List.replicate (highFindings croAnalysis uxAnalysis).length "high"
        ++ List.replicate (mediumFindings croAnalysis uxAnalysis).length "medium"
    ∧ (∀ r ∈ (generateRecommendations croAnalysis uxAnalysis).take
          (highFindings croAnalysis uxAnalysis).length,
        r.priority = "high" ∧ r.impact = "High" ∧ r.effort = "Medium")
    ∧ (∀ r ∈ (generateRecommendations croAnalysis uxAnalysis).drop
          (highFindings croAnalysis uxAnalysis).length,
        r.priority = "medium" ∧ r.impact = "Medium" ∧ r.effort = "Low")
    ∧ (∀ q ∈ highFindings croAnalysis uxAnalysis, q.priority = "high" ∧ q.answer ≠ "yes")
    ∧ (∀ q ∈ mediumFindings croAnalysis uxAnalysis,
        q.priority = "medium" ∧ q.answer ≠ "yes") := by
  have hrecs : generateRecommendations croAnalysis uxAnalysis
      = (highFindings croAnalysis uxAnalysis).map (fun q =>
          ({ title := "Fix: " ++ q.question, description := q.recommendation,
             priority := "high", impact := "High", effort := "Medium",
             category := if croAnalysis.any (fun cat => cat.questions.contains q)
               then "cro" else "ux" } : Recommendation))
        ++ (mediumFindings croAnalysis uxAnalysis).map (fun q =>
          ({ title := "Improve: " ++ q.question, description := q.recommendation,
             priority := "medium", impact := "Medium", effort := "Low",
             category := if croAnalysis.any (fun cat => cat.questions.contains q)
               then "cro" else "ux" } : Recommendation)) := rfl
  have hhlen : ((highFindings croAnalysis uxAnalysis).map (fun q =>
      ({ title := "Fix: " ++ q.question, description := q.recommendation,
         priority := "high", impact := "High", effort := "Medium",
         category := if croAnalysis.any (fun cat => cat.questions.contains q)
           then "cro" else "ux" } : Recommendation))).length
      = (highFindings croAnalysis uxAnalysis).length := List.length_map _ _
  have htake : (generateRecommendations croAnalysis uxAnalysis).take
      (highFindings croAnalysis uxAnalysis).length
      = (highFindings croAnalysis uxAnalysis).map (fun q =>
          ({ title := "Fix: " ++ q.question, description := q.recommendation,
             priority := "high", impact := "High", effort := "Medium",
             category := if croAnalysis.any (fun cat => cat.questions.contains q)
               then "cro" else "ux" } : Recommendation)) := by
    rw [hrecs, ← hhlen, List.take_left]
  have hdrop : (generateRecommendations croAnalysis uxAnalysis).drop
      (highFindings croAnalysis uxAnalysis).length
      = (mediumFindings croAnalysis uxAnalysis).map (fun q =>
          ({ title := "Improve: " ++ q.question, description := q.recommendation,
             priority := "medium", impact := "Medium", effort := "Low",
             category := if croAnalysis.any (fun cat => cat.questions.contains q)
               then "cro" else "ux" } : Recommendation)) := by
    rw [hrecs, ← hhlen, List.drop_left]
  have hh5 : (highFindings croAnalysis uxAnalysis).length ≤ 5 := by
    simp only [highFindings, List.length_take]
    omega
  have hm3 : (mediumFindings croAnalysis uxAnalysis).length ≤ 3 := by
    simp only [mediumFindings, List.length_take]
    omega
  have hlen : (generateRecommendations croAnalysis uxAnalysis).length
      = (highFindings croAnalysis uxAnalysis).length
        + (mediumFindings croAnalysis uxAnalysis).length := by
    rw [hrecs]
    simp
  refine ⟨by omega, hlen, hh5, hm3, ?_, ?_, ?_, ?_, ?_, ?_, ?_⟩
  · rw [htake, List.map_map]
    rfl
  · rw [hdrop, List.map_map]
    rfl
  · rw [hrecs, List.map_append, List.map_map, List.map_map]
    congr 1
    · exact List.map_const' _ _
    · exact List.map_const' _ _
  · intro r hr
    rw [htake] at hr
    obtain ⟨q, _, rfl⟩ := List.mem_map.mp hr
    exact ⟨rfl, rfl, rfl⟩
  · intro r hr
    rw [hdrop] at hr
    obtain ⟨q, _, rfl⟩ := List.mem_map.mp hr
    exact ⟨rfl, rfl, rfl⟩
  · intro q hq
    have hf := List.mem_of_mem_take hq
    have := (List.mem_filter.mp hf).2
    simp only [Bool.and_eq_true, beq_iff_eq, bne_iff_ne, ne_eq] at this
    exact this
  · intro q hq
    have hf := List.mem_of_mem_take hq
    have := (List.mem_filter.mp hf).2
    simp only [Bool.and_eq_true, beq_iff_eq, bne_iff_ne, ne_eq] at this
    exact this

/-- C5 counterexample: with forms=0, buttons=0, empty title and
description, the CTA question text contains the keyword `clear` and is
captured by the value-proposition rule, answering needs_work with medium
priority (not no/high); the lead-magnet question matches no keyword class;
the only high-priority recommendation comes from the information-hierarchy
question (whose text contains `form` inside `information`). -/
theorem heuristic_cta_scenario_counterexample :
    (fallbackAnswer ⟨"", "", [], [], [], 0, 0⟩
        "Are there multiple clear calls-to-action (CTAs) on the page?").answer = "needs_work"
    ∧ (fallbackAnswer ⟨"", "", [], [], [], 0, 0⟩
        "Are there multiple clear calls-to-action (CTAs) on the page?").priority = "medium"
    ∧ (fallbackAnswer ⟨"", "", [], [], [], 0, 0⟩
        "Is there a lead magnet or free offer to capture emails?").answer = "needs_work"
    ∧ (fallbackAnswer ⟨"", "", [], [], [], 0, 0⟩
        "Is there a lead magnet or free offer to capture emails?").priority = "medium"
    ∧ ((runAnalysis (fun _ => .unavailable) "https://example.com"
          ⟨"", "", [], [], [], 0, 0⟩).recommendations.map (fun r => r.title))
      = ["Fix: Is there a logical information hierarchy?",
         "Improve: Is there a clear, compelling value proposition above the fold?",
         "Improve: Are there multiple clear calls-to-action (CTAs) on the page?",
         "Improve: Is there social proof (testimonials, reviews, case studies) visible?"] := by
  refine ⟨by decide, by decide, by decide, by decide, by decide⟩

/-- C5 (amended): for content with forms=0, buttons=0, empty title and
description under all-heuristic evaluation, the CTA and lead-capture
questions are both answered needs_work with medium priority (the CTA text
is captured first by the value-proposition/clear class, the lead-magnet
text matches no class), so neither produces a high-priority
recommendation; the recommendation list is one high `Fix:` row, from the
information-hierarchy question, followed by three medium `Improve:` rows. -/
theorem heuristic_cta_scenario_amended :
    fallbackAnswer ⟨"", "", [], [], [], 0, 0⟩
        "Are there multiple clear calls-to-action (CTAs) on the page?"
      = { question := "Are there multiple clear calls-to-action (CTAs) on the page?",
          answer := "needs_work",
          evidence := "Basic analysis based on available content",
          recommendation := "Review this aspect manually for detailed insights",
          priority := "medium" }
    ∧ fallbackAnswer ⟨"", "", [], [], [], 0, 0⟩
        "Is there a lead magnet or free offer to capture emails?"
      = defaultAnswer "Is there a lead magnet or free offer to capture emails?"
    ∧ ((runAnalysis (fun _ => .unavailable) "https://example.com"
          ⟨"", "", [], [], [], 0, 0⟩).recommendations.map (fun r => r.title))
      = ["Fix: Is there a logical information hierarchy?",
         "Improve: Is there a clear, compelling value proposition above the fold?",
         "Improve: Are there multiple clear calls-to-action (CTAs) on the page?",
         "Improve: Is there social proof (testimonials, reviews, case studies) visible?"]
    ∧ ((runAnalysis (fun _ => .unavailable) "https://example.com"
          ⟨"", "", [], [], [], 0, 0⟩).recommendations.map (fun r => r.priority))
      = ["high", "medium", "medium", "medium"] := by
  refine ⟨by decide, by decide, by decide, by decide⟩

/-- C8 counterexample: the response surfaced to the caller is the same
generic 500 message for a connection-refused failure and for a timeout, so
the caller-visible error does not distinguish the fetch failure kinds. -/
theorem fetch_error_surfaced_counterexample :
    POST (some "https://example.com") true (.fetchErr .connRefused) (fun _ => .unavailable)
      = .err "Analysis failed. Please try again." 500
    ∧ POST (some "https://example.com") true (.fetchErr .timedOut) (fun _ => .unavailable)
      = .err "Analysis failed. Please try again." 500 := by
  constructor <;> rfl

/-- C8 (amended): any fetch failure aborts the whole analysis with no
AnalysisResult; the error thrown inside fetchWebsiteContent carries a
human-readable cause whose message distinguishes connection-refused,
host-not-found, 403, 404 and timeout pairwise, but the route handler
surfaces only the generic message to its caller. -/
theorem fetch_failure_aborts (url : String) (urlValid : Bool) (kind : FetchErrorKind)
    (backend : Nat → AIOutcome) (hu : url ≠ "") (hv : urlValid = true) :
    POST (some url) urlValid (.fetchErr kind) backend
      = .err "Analysis failed. Please try again." 500
    ∧ fetchWebsiteContent (.fetchErr kind) = .error (fetchErrorMessage kind)
    ∧ ([FetchErrorKind.connRefused, .hostNotFound, .forbidden403, .notFound404,
        .timedOut].map fetchErrorMessage).Pairwise (fun a b => a ≠ b) := by
  subst hv
  refine ⟨?_, rfl, by decide⟩
  simp [POST, hu, fetchWebsiteContent]

/-- Witness for C8's amended claim at a concrete failing fetch. -/
theorem fetch_failure_aborts_witness :
    ("https://example.com" ≠ "" ∧ true = true)
    ∧ POST (some "https://example.com") true (.fetchErr .forbidden403) (fun _ => .unavailable)
      = .err "Analysis failed. Please try again." 500
    ∧ fetchWebsiteContent (.fetchErr .forbidden403)
      = .error (fetchErrorMessage .forbidden403) := by
  have h := fetch_failure_aborts "https://example.com" true .forbidden403
    (fun _ => .unavailable) (by decide) rfl
  exact ⟨⟨by decide, rfl⟩, h.1, h.2.1⟩
